import Mathlib

/-!
Verification of the DiscordMinecraftLink server core.

This file gives a shallow embedding, in Lean, of the parts of the
repository that the verified statements talk about:

* the resilient Discord fetch client (`discordFetch` in the discord utils
  module): wall-clock deadline, retry scheduling, exponential backoff with
  jitter, Retry-After hints;
* the OAuth2 token revocation classifier (`revokeDiscordOAuth2Token`);
* the linking-code generator (`generateLinkingCode` in the
  createVerificationFlow RPC module), modelled over an explicit stream of
  random bytes;
* the three stateful RPC handlers (`createVerificationFlow`,
  `linkDiscordAccount`, `verifyConnection`), modelled as pure functions
  from an environment (the outcomes of external calls and of each
  datastore statement) and a datastore snapshot to a result and a new
  snapshot;
* the JSON-RPC dispatcher (`handleRPC`), modelled over the outcome of each
  stage of its pipeline.

Datastore tables are lists of rows; a drizzle `batch` is modelled as an
atomic step: either both statements apply or neither does, which is
exactly the semantics the source relies on.  External effects (fetches,
individual datastore statements) are oracles carried in an environment
record, so every failure point of the source is a reachable input here.
-/

namespace DML

/-- Tagged result type mirroring the success/error union of
src/server/src/utils/result.ts (`Result<Ok, Err>`). -/
inductive Result (α : Type) (ε : Type) where
  | ok (value : α) : Result α ε
  | err (error : ε) : Result α ε
deriving DecidableEq, Repr

/-- Model of a JSON value used as an opaque response body.  The functions
modelled here never inspect bodies beyond passing them around, so atoms
suffice; quantifying over this type expresses body-independence. -/
inductive Json where
  | null
  | bool (b : Bool)
  | num (q : ℚ)
  | str (s : String)
deriving DecidableEq, Repr

/-! ## The resilient fetch client (discordFetch) -/

/-- The fetch error enum of the discord utils module
(`DiscordFetchError`). -/
inductive DiscordFetchError where
  | networkError
  | invalidJson
  | retriesExhausted
  | timeout
deriving DecidableEq, Repr

/-- A successful fetch: parsed (still unvalidated) body and status code. -/
structure FetchSuccess where
  data : Json
  statusCode : Nat
deriving DecidableEq, Repr

/-- Classified outcome of one attempt, as produced by `discordFetchInner`:
success, a final failure (invalid JSON body on a non-retryable status), or
a retryable failure carrying an optional Retry-After delay hint in
milliseconds (429 with a parseable header yields a hint; transport
failures, 5xx and unparseable Retry-After headers yield no hint). -/
inductive AttemptOutcome where
  | success (v : FetchSuccess)
  | final (e : DiscordFetchError)
  | retry (afterMs : Option ℚ)
deriving Repr

/-- Oracle for one `discordFetch` call: for each attempt number (1-based),
the classified outcome of that attempt, the wall-clock time the attempt
consumes, and the `Math.random()` draw used for backoff jitter. -/
structure FetchEnv where
  outcome : Nat → AttemptOutcome
  duration : Nat → ℚ
  random : Nat → ℚ

/-- EXTRA_BUFFER_MS of discordFetch: safety buffer subtracted from the
remaining time when capping a backoff delay. -/
def EXTRA_BUFFER_MS : ℚ := 100

/-- JITTER_RANGE of discordFetch (0.3). -/
def JITTER_RANGE : ℚ := 3 / 10

/-- JITTER_MIN of discordFetch (0.85). -/
def JITTER_MIN : ℚ := 17 / 20

/-- Default retry budget of discordFetch (`retries = 3`). -/
def defaultRetries : Nat := 3

/-- Default timeout budget of discordFetch (`timeoutMs = 5000`). -/
def defaultTimeoutMs : ℚ := 5000

/-- The attempt loop of `discordFetch`.  `fuel` is the number of loop
iterations still allowed (the loop runs for `attempt` in
`1 .. retries + 1`), `attempt` the 1-based attempt counter, `now` the
current wall-clock time in milliseconds.  Falling off the loop, or a
`break`, returns `retries-exhausted`.  Before each attempt the remaining
time against the single deadline `maxEnd` is checked; an attempt whose
duration reaches the remaining time is aborted by the watchdog timer and
reported as `timeout`. -/
def fetchGo (env : FetchEnv) (maxEnd : ℚ) (retries : Nat) :
    Nat → Nat → ℚ → Result FetchSuccess DiscordFetchError
  | 0, _, _ => .err .retriesExhausted
  | fuel + 1, attempt, now =>
    if maxEnd - now ≤ 0 then .err .timeout
    else if maxEnd - now ≤ env.duration attempt then .err .timeout
    else
      match env.outcome attempt with
      | .success v => .ok v
      | .final e => .err e
      | .retry afterMs =>
        if retries < attempt then .err .retriesExhausted
        else
          let now1 := now + env.duration attempt
          match afterMs with
          | none =>
            let jitter := env.random attempt * JITTER_RANGE + JITTER_MIN
            let backoffMs :=
              min (500 * 2 ^ (attempt - 1) * jitter) (maxEnd - now1 - EXTRA_BUFFER_MS)
            if backoffMs ≤ 0 then .err .retriesExhausted
            else fetchGo env maxEnd retries fuel (attempt + 1) (now1 + backoffMs)
          | some a =>
            if maxEnd ≤ now1 + a then .err .timeout
            else fetchGo env maxEnd retries fuel (attempt + 1) (now1 + a)

/-- `discordFetch`: one logical call with a single wall-clock deadline
`startTime + timeoutMs` covering all `retries + 1` attempts. -/
def discordFetch (env : FetchEnv) (retries : Nat) (timeoutMs startTime : ℚ) :
    Result FetchSuccess DiscordFetchError :=
  fetchGo env (startTime + timeoutMs) retries (retries + 1) 1 startTime

/-! ## Token revocation (revokeDiscordOAuth2Token) -/

/-- Error enum of `revokeDiscordOAuth2Token`
(`DiscordRevokeOAuth2TokenError`). -/
inductive RevokeError where
  | fetch (e : DiscordFetchError)
  | invalidAuth
  | unexpectedResponse
deriving DecidableEq, Repr

/-- Status classification performed by `revokeDiscordOAuth2Token` after a
successful fetch: 401 is invalid-auth, then any status other than 200 and
204 is unexpected-response, otherwise success (the body is never read). -/
def revokeClassify (s : FetchSuccess) : Result Unit RevokeError :=
  if s.statusCode = 401 then .err .invalidAuth
  else if s.statusCode ≠ 200 ∧ s.statusCode ≠ 204 then .err .unexpectedResponse
  else .ok ()

/-- `revokeDiscordOAuth2Token`: issue the revocation request through
`discordFetch`, propagate fetch errors, classify the status of a
successful response. -/
def revokeDiscordOAuth2Token (env : FetchEnv) (retries : Nat) (timeoutMs startTime : ℚ) :
    Result Unit RevokeError :=
  match discordFetch env retries timeoutMs startTime with
  | .err e => .err (.fetch e)
  | .ok s => revokeClassify s

/-! ## Linking-code generation (generateLinkingCode) -/

/-- The code alphabet of `generateLinkingCode`:
abcdefghijklmnopqrstuvwxyz0123456789 (36 symbols). -/
def CHARS : List Char := "abcdefghijklmnopqrstuvwxyz0123456789".toList

/-- Alphabet size (`charsLength = CHARS.length`). -/
def charsLength : Nat := CHARS.length

/-- Rejection threshold: `maxValid = 256 - 256 % charsLength`, the largest
multiple of the alphabet size that fits in a byte. -/
def maxValid : Nat := 256 - 256 % charsLength

/-- Generated code length (`LENGTH = 8`). -/
def LENGTH : Nat := 8

/-- Mapping from an accepted byte to its alphabet symbol
(`CHARS[byte % charsLength]`). -/
def toLinkChar (b : Nat) : Char := CHARS.getD (b % charsLength) 'a'

/-- The rejection-sampling loop of `generateLinkingCode` over an explicit
list of random bytes (the concatenation of the successive
`crypto.getRandomValues` blocks, consumed left to right).  A byte is
accepted exactly when it is below `maxValid`; accepted bytes append
`toLinkChar` symbols until the code has `LENGTH` characters.  If the
supplied bytes run out first the model returns `none` (the source would
block drawing more randomness). -/
def genLoop (bytes : List Nat) (code : List Char) : Option (List Char) :=
  if LENGTH ≤ code.length then some code
  else
    match bytes with
    | [] => none
    | b :: rest =>
      if b < maxValid then genLoop rest (code ++ [toLinkChar b])
      else genLoop rest code

/-- `generateLinkingCode` over an explicit random byte stream. -/
def generateLinkingCode (bytes : List Nat) : Option (List Char) :=
  genLoop bytes []

/-! ## Datastore model (src/server/src/db/schema.ts) -/

/-- A row of the discordUsers table. -/
structure DiscordUserRow where
  id : Nat
  createdAt : Nat
  discordID : String
  discordRefreshToken : Option String
deriving DecidableEq, Repr

/-- A row of the minecraftUsers table. -/
structure MinecraftUserRow where
  id : Nat
  createdAt : Nat
  minecraftUUID : String
deriving DecidableEq, Repr

/-- A row of the connections table. -/
structure ConnectionRow where
  id : Nat
  createdAt : Nat
  discordUserID : Nat
  minecraftUserID : Nat
deriving DecidableEq, Repr

/-- A row of the verificationFlows table. -/
structure FlowRow where
  id : Nat
  createdAt : Nat
  expiresAt : Nat
  linkingCode : String
  minecraftUUID : String
deriving DecidableEq, Repr

/-- A snapshot of the four tables. -/
structure DB where
  discordUsers : List DiscordUserRow
  minecraftUsers : List MinecraftUserRow
  connections : List ConnectionRow
  verificationFlows : List FlowRow
deriving DecidableEq, Repr

/-! ## createVerificationFlow handler -/

/-- EXPIRY_DURATION_MS: verification flows live for 15 minutes. -/
def EXPIRY_DURATION_MS : Nat := 15 * 60 * 1000

/-- MAX_CODE_GENERATION_ATTEMPTS of the createVerificationFlow handler. -/
def MAX_CODE_GENERATION_ATTEMPTS : Nat := 5

/-- Error enum of the createVerificationFlow RPC result schema. -/
inductive CreateFlowError where
  | InvalidSharedSecret
  | DatabaseError
  | CodeGenerationFailed
deriving DecidableEq, Repr

/-- Success value of createVerificationFlow.  The source serialises
`expiresAt` as an ISO timestamp of the same instant; the model keeps the
epoch-millisecond value. -/
structure FlowValue where
  expiresAt : Nat
  linkingCode : String
deriving DecidableEq, Repr

/-- Oracle for one createVerificationFlow invocation: the shared-secret
comparison outcome and, for every datastore statement the handler may
issue, whether that statement succeeds; `code i` is the code produced by
the generator on attempt `i` and `newFlowId i` the rowid the insert on
attempt `i` would allocate. -/
structure CreateFlowEnv where
  secretOk : Bool
  existingQueryOk : Bool
  updateOk : Bool
  deleteByUUIDOk : Bool
  code : Nat → String
  codeQueryOk : Nat → Bool
  deleteCollidingOk : Nat → Bool
  insertOk : Nat → Bool
  newFlowId : Nat → Nat

/-- The code-generation loop of the createVerificationFlow handler:
up to `fuel` further attempts (starting from attempt index `attempt`),
each generating a code, checking it for a collision, deleting an expired
colliding row, and inserting the new flow. -/
def createFlowLoop (env : CreateFlowEnv) (uuid : String) (now expiresAt : Nat) :
    Nat → Nat → List FlowRow → Result FlowValue CreateFlowError × List FlowRow
  | 0, _, flows => (.err .CodeGenerationFailed, flows)
  | fuel + 1, attempt, flows =>
    if env.codeQueryOk attempt = false then (.err .DatabaseError, flows)
    else
      let linkingCode := env.code attempt
      let insertInto : List FlowRow → Result FlowValue CreateFlowError × List FlowRow :=
        fun fs =>
          if env.insertOk attempt then
            (.ok ⟨expiresAt, linkingCode⟩,
              fs ++ [⟨env.newFlowId attempt, now, expiresAt, linkingCode, uuid⟩])
          else (.err .DatabaseError, fs)
      match flows.find? (fun f => f.linkingCode == linkingCode) with
      | none => insertInto flows
      | some codeEntry =>
        if now < codeEntry.expiresAt then
          createFlowLoop env uuid now expiresAt fuel (attempt + 1) flows
        else if env.deleteCollidingOk attempt then
          insertInto (flows.filter (fun f => f.id != codeEntry.id))
        else (.err .DatabaseError, flows)

/-- The createVerificationFlow handler.  Checks the shared secret, reuses
an unexpired flow for the UUID (extending its expiry to `now + TTL` and
returning its existing code), otherwise deletes any stale flow row for the
UUID and runs the generation loop. -/
def createVerificationFlow (env : CreateFlowEnv) (uuid : String) (now : Nat) (db : DB) :
    Result FlowValue CreateFlowError × DB :=
  if env.secretOk = false then (.err .InvalidSharedSecret, db)
  else
    let expiresAt := now + EXPIRY_DURATION_MS
    if env.existingQueryOk = false then (.err .DatabaseError, db)
    else
      match db.verificationFlows.find?
          (fun f => f.minecraftUUID == uuid && decide (now < f.expiresAt)) with
      | some flow =>
        if env.updateOk then
          (.ok ⟨expiresAt, flow.linkingCode⟩,
            { db with verificationFlows :=
                (db.verificationFlows.map fun g =>
                  if g.id = flow.id then { g with expiresAt := expiresAt } else g) })
        else (.err .DatabaseError, db)
      | none =>
        if env.deleteByUUIDOk = false then (.err .DatabaseError, db)
        else
          let flows := db.verificationFlows.filter (fun f => f.minecraftUUID != uuid)
          let step := createFlowLoop env uuid now expiresAt MAX_CODE_GENERATION_ATTEMPTS 0 flows
          (step.1, { db with verificationFlows := step.2 })

/-! ## Discord API call results used by the handlers -/

/-- Token data kept by the handlers (the fields of `DiscordOAuth2TokenData`
that the linking and verification handlers read). -/
structure TokenData where
  accessToken : String
  refreshToken : String
deriving DecidableEq, Repr

/-- Error enum of `createDiscordOAuth2TokenWithCode`. -/
inductive TokenExchangeError where
  | fetch (e : DiscordFetchError)
  | invalidAuth
  | unexpectedResponse
  | unknownError
  | invalidCode
deriving DecidableEq, Repr

/-- Error enum of `createDiscordOAuth2TokenWithRefreshToken`. -/
inductive RefreshError where
  | fetch (e : DiscordFetchError)
  | invalidAuth
  | unexpectedResponse
  | unknownError
deriving DecidableEq, Repr

/-- Error enum of `fetchDiscordUserData`. -/
inductive UserFetchError where
  | fetch (e : DiscordFetchError)
  | invalidAuth
  | insufficientPermissions
  | unexpectedResponse
deriving DecidableEq, Repr

/-- Error enum of `fetchDiscordUserGuildsData`. -/
inductive GuildsFetchError where
  | fetch (e : DiscordFetchError)
  | invalidAuth
  | insufficientPermissions
  | unexpectedResponse
deriving DecidableEq, Repr

/-- User profile fields returned by `fetchDiscordUserData`. -/
structure DiscordUserData where
  id : String
  username : String
deriving DecidableEq, Repr

/-- Guild fields returned by `fetchDiscordUserGuildsData`. -/
structure GuildData where
  id : String
  name : String
deriving DecidableEq, Repr

/-- Configuration read by the handlers (`DISCORD_GUILD_ID`). -/
structure LinkCtx where
  guildID : String
deriving DecidableEq, Repr

/-! ## linkDiscordAccount handler -/

/-- The decoded OAuth state payload. -/
structure OAuthState where
  linkingCode : String
  timestamp : Nat
deriving DecidableEq, Repr

/-- Error enum of the linkDiscordAccount RPC result schema. -/
inductive LinkError where
  | InvalidState
  | InvalidLinkingCode
  | InvalidCode
  | DiscordError
  | DatabaseError
  | AccessDenied
deriving DecidableEq, Repr

/-- Oracle for one linkDiscordAccount invocation: the result of
`decodeOAuthState(params.state)` (the URL decoding itself is not modelled),
the outcomes of the three Discord calls, whether each of the two
`db.batch` submissions succeeds, and the rowids fresh inserts would
allocate. -/
structure LinkEnv where
  stateDecode : Option OAuthState
  flowQueryOk : Bool
  tokenResult : Result TokenData TokenExchangeError
  userResult : Result DiscordUserData UserFetchError
  guildsResult : Result (List GuildData) GuildsFetchError
  batch1Ok : Bool
  newDiscordUserId : Nat
  newMinecraftUserId : Nat
  batch2Ok : Bool
  newConnectionId : Nat
deriving Repr

/-- Upsert into discordUsers keyed by the unique discordID column: insert,
or on conflict update the stored refresh token; `.returning()` yields the
affected row. -/
def upsertDiscordUser (tbl : List DiscordUserRow) (newId now : Nat)
    (discordID refreshToken : String) : DiscordUserRow × List DiscordUserRow :=
  match tbl.find? (fun r => r.discordID == discordID) with
  | some r =>
    ({ r with discordRefreshToken := some refreshToken },
      tbl.map (fun s =>
        if s.discordID = discordID then { s with discordRefreshToken := some refreshToken }
        else s))
  | none =>
    (⟨newId, now, discordID, some refreshToken⟩, tbl ++ [⟨newId, now, discordID, some refreshToken⟩])

/-- Upsert into minecraftUsers keyed by the unique minecraftUUID column:
insert, or on conflict write the same UUID back (a no-op update);
`.returning()` yields the affected row. -/
def upsertMinecraftUser (tbl : List MinecraftUserRow) (newId now : Nat)
    (uuid : String) : MinecraftUserRow × List MinecraftUserRow :=
  match tbl.find? (fun r => r.minecraftUUID == uuid) with
  | some r =>
    ({ r with minecraftUUID := uuid },
      tbl.map (fun s => if s.minecraftUUID = uuid then { s with minecraftUUID := uuid } else s))
  | none => (⟨newId, now, uuid⟩, tbl ++ [⟨newId, now, uuid⟩])

/-- Upsert into connections: insert `{discordUserID, minecraftUserID}`, or
on conflict by the unique minecraftUserID column overwrite the discord
side and refresh the creation time. -/
def upsertConnection (tbl : List ConnectionRow) (newId now discordUserID minecraftUserID : Nat) :
    List ConnectionRow :=
  match tbl.find? (fun r => r.minecraftUserID == minecraftUserID) with
  | some _ =>
    tbl.map (fun s =>
      if s.minecraftUserID = minecraftUserID then
        { s with createdAt := now, discordUserID := discordUserID }
      else s)
  | none => tbl ++ [⟨newId, now, discordUserID, minecraftUserID⟩]

/-- The linkDiscordAccount handler.  Decodes the OAuth state, resolves an
unexpired flow by linking code, exchanges the authorization code, fetches
the profile and the guild list, requires guild membership, then submits
two `db.batch` calls: first the discordUsers and minecraftUsers upserts,
then the connections upsert together with the consumed flow deletion.
Each batch applies atomically; the second failing leaves the first
committed.  (The source also guards against the batch result missing the
returned rows; under the upsert model the affected row always exists, so
that guard cannot fire and is omitted.) -/
def linkDiscordAccount (env : LinkEnv) (ctx : LinkCtx) (now : Nat) (db : DB) :
    Result String LinkError × DB :=
  match env.stateDecode with
  | none => (.err .InvalidState, db)
  | some state =>
    if env.flowQueryOk = false then (.err .DatabaseError, db)
    else
      match db.verificationFlows.find?
          (fun f => f.linkingCode == state.linkingCode && decide (now < f.expiresAt)) with
      | none => (.err .InvalidLinkingCode, db)
      | some flow =>
        match env.tokenResult with
        | .err e =>
          if e = .invalidCode then (.err .InvalidCode, db) else (.err .DiscordError, db)
        | .ok token =>
          match env.userResult with
          | .err _ => (.err .DiscordError, db)
          | .ok discordUser =>
            match env.guildsResult with
            | .err _ => (.err .DiscordError, db)
            | .ok guilds =>
              if guilds.any (fun g => g.id == ctx.guildID) = false then
                (.err .AccessDenied, db)
              else if env.batch1Ok = false then (.err .DatabaseError, db)
              else
                let du := upsertDiscordUser db.discordUsers env.newDiscordUserId now
                  discordUser.id token.refreshToken
                let mu := upsertMinecraftUser db.minecraftUsers env.newMinecraftUserId now
                  flow.minecraftUUID
                let db1 : DB :=
                  { db with discordUsers := du.2, minecraftUsers := mu.2 }
                if env.batch2Ok = false then (.err .DatabaseError, db1)
                else
                  (.ok discordUser.username,
                    { db1 with
                      connections :=
                        upsertConnection db1.connections env.newConnectionId now du.1.id mu.1.id,
                      verificationFlows :=
                        db1.verificationFlows.filter (fun f => f.id != flow.id) })

/-! ## verifyConnection handler -/

/-- Error enum of the verifyConnection RPC result schema. -/
inductive VerifyError where
  | InvalidSharedSecret
  | NotLinked
  | InvalidAuth
  | AccessDenied
  | DiscordError
  | DatabaseError
deriving DecidableEq, Repr

/-- Oracle for one verifyConnection invocation: the shared-secret
comparison outcome, whether each datastore statement succeeds, and the
outcomes of the token refresh and the guild fetch. -/
structure VerifyEnv where
  secretOk : Bool
  mcQueryOk : Bool
  connQueryOk : Bool
  duQueryOk : Bool
  tokenResult : Result TokenData RefreshError
  refreshUpdateOk : Bool
  guildsResult : Result (List GuildData) GuildsFetchError
  deleteOk : Bool
deriving Repr

/-- The verifyConnection handler.  Checks the shared secret, resolves the
minecraft user, its connection and the linked discord user, refreshes the
stored token, persists the rotated refresh token, fetches the guild list
and, if the configured guild is absent, deletes the connection and
reports AccessDenied. -/
def verifyConnection (env : VerifyEnv) (ctx : LinkCtx) (uuid : String) (db : DB) :
    Result Unit VerifyError × DB :=
  if env.secretOk = false then (.err .InvalidSharedSecret, db)
  else if env.mcQueryOk = false then (.err .DatabaseError, db)
  else
    match db.minecraftUsers.find? (fun r => r.minecraftUUID == uuid) with
    | none => (.err .NotLinked, db)
    | some minecraftUser =>
      if env.connQueryOk = false then (.err .DatabaseError, db)
      else
        match db.connections.find? (fun r => r.minecraftUserID == minecraftUser.id) with
        | none => (.err .NotLinked, db)
        | some connection =>
          if env.duQueryOk = false then (.err .DatabaseError, db)
          else
            match db.discordUsers.find? (fun r => r.id == connection.discordUserID) with
            | none => (.err .DatabaseError, db)
            | some discordUser =>
              match discordUser.discordRefreshToken with
              | none => (.err .InvalidAuth, db)
              | some _ =>
                match env.tokenResult with
                | .err e =>
                  if e = .invalidAuth then (.err .InvalidAuth, db)
                  else (.err .DiscordError, db)
                | .ok token =>
                  if env.refreshUpdateOk = false then (.err .DatabaseError, db)
                  else
                    let db1 : DB :=
                      { db with discordUsers :=
                          db.discordUsers.map (fun s =>
                            if s.id = discordUser.id then
                              { s with discordRefreshToken := some token.refreshToken }
                            else s) }
                    match env.guildsResult with
                    | .err e =>
                      if e = .invalidAuth then (.err .InvalidAuth, db1)
                      else (.err .DiscordError, db1)
                    | .ok guilds =>
                      if guilds.any (fun g => g.id == ctx.guildID) = false then
                        if env.deleteOk = false then (.err .DatabaseError, db1)
                        else
                          (.err .AccessDenied,
                            { db1 with connections :=
                                db1.connections.filter (fun c => c.id != connection.id) })
                      else (.ok (), db1)

/-! ## JSON-RPC dispatcher (handleRPC) -/

/-- A JSON-RPC request id: string, number or null. -/
inductive RpcId where
  | str (s : String)
  | num (n : Int)
  | null
deriving DecidableEq, Repr

/-- A JSON-RPC response: either a success envelope carrying the result of
the handler, or an error envelope carrying a code and a message. -/
inductive RpcResponse where
  | success (id : RpcId) (res : Json)
  | failure (id : RpcId) (code : Int) (message : String)
deriving DecidableEq, Repr

/-- The id carried by a response envelope. -/
def responseId : RpcResponse → RpcId
  | .success i _ => i
  | .failure i _ _ => i

/-- The method names registered in RPC_HANDLERS. -/
def knownMethods : List String :=
  ["createVerificationFlow", "getDiscordOAuthLink", "linkDiscordAccount", "verifyConnection"]

/-- Oracle for one handleRPC invocation: whether the body read succeeds,
whether `JSON.parse` succeeds, whether the envelope passes
RPCRequestSchema, the id member the parsed body carries (if any — present
whether or not the envelope as a whole validates), the requested method
name, whether the params pass the matched handler schema, whether the
handler throws, and the domain result it returns otherwise. -/
structure RpcEnv where
  bodyReadOk : Bool
  jsonParseOk : Bool
  envelopeOk : Bool
  envelopeId : Option RpcId
  method : String
  paramsOk : Bool
  handlerThrows : Bool
  handlerValue : Json
deriving Repr

/-- The handleRPC dispatcher pipeline.  Body read or JSON parse failure
yields parse error -32700 with a null id; an envelope schema failure
yields invalid request -32600 with a null id; only after the envelope
validates is the request id adopted (`?? null`); an unregistered method
yields -32601, a params schema failure -32602, a throwing handler -32603
(tryCatch boundary), and otherwise the domain result is wrapped
unchanged.  The model is a total function: every input maps to a
well-formed response envelope. -/
def handleRPC (env : RpcEnv) : RpcResponse :=
  if env.bodyReadOk = false then .failure .null (-32700) "Parse error"
  else if env.jsonParseOk = false then .failure .null (-32700) "Parse error"
  else if env.envelopeOk = false then .failure .null (-32600) "Invalid Request"
  else
    let rid := env.envelopeId.getD .null
    if knownMethods.contains env.method then
      if env.paramsOk = false then .failure rid (-32602) "Invalid params"
      else if env.handlerThrows then .failure rid (-32603) "Internal error"
      else .success rid env.handlerValue
    else .failure rid (-32601) "Method not found"

/-- A response is well formed when it is a success envelope or an error
envelope carrying one of the five standard JSON-RPC codes. -/
def wellFormedResponse : RpcResponse → Prop
  | .success _ _ => True
  | .failure _ c _ => c = -32700 ∨ c = -32600 ∨ c = -32601 ∨ c = -32602 ∨ c = -32603

/-- Concrete dispatcher input used to witness the error-classification
theorem: an unknown method with an otherwise valid envelope. -/
def rpcEnvUnknownMethod : RpcEnv :=
  ⟨true, true, true, some (.num 5), "nope", true, false, .null⟩

/-- Concrete dispatcher input used to witness the id-echo theorem: the
body read fails although the body carried a valid id member. -/
def rpcEnvBodyReadFails : RpcEnv :=
  ⟨false, true, true, some (.num 7), "verifyConnection", true, false, .null⟩

/-- Concrete verifyConnection oracle with every external step succeeding
and the guild list empty (so membership fails where it is reached). -/
def verifyEnvAllOk : VerifyEnv :=
  ⟨true, true, true, true, .ok ⟨"accessTok", "rotatedTok"⟩, true, .ok [], true⟩

/-- Datastore snapshot with a minecraft user and a connection whose
referenced discord user row is absent. -/
def dbDanglingConnection : DB :=
  ⟨[], [⟨1, 0, "u1"⟩], [⟨7, 0, 5, 1⟩], []⟩

/-- Datastore snapshot with a fully linked user (discord row id 5 holding
a refresh token, minecraft row id 1, connection row id 7). -/
def dbLinked : DB :=
  ⟨[⟨5, 0, "d1", some "storedTok"⟩], [⟨1, 0, "u1"⟩], [⟨7, 0, 5, 1⟩], []⟩

/-- Concrete linking oracle: everything succeeds and the fetched guild
list contains the configured guild, but the second batch (connection
upsert plus flow deletion) fails. -/
def linkEnvBatch2Fails : LinkEnv :=
  ⟨some ⟨"abc", 0⟩, true, .ok ⟨"accessTok", "refreshTok"⟩, .ok ⟨"d1", "alice"⟩,
    .ok [⟨"g", "Guild"⟩], true, 10, 11, false, 12⟩

/-- Concrete linking oracle: everything succeeds including both batches. -/
def linkEnvAllOk : LinkEnv :=
  ⟨some ⟨"abc", 0⟩, true, .ok ⟨"accessTok", "refreshTok"⟩, .ok ⟨"d1", "alice"⟩,
    .ok [⟨"g", "Guild"⟩], true, 10, 11, true, 12⟩

/-- Concrete linking oracle: the fetched guild list is empty, so the
configured guild is absent and the handler reports AccessDenied. -/
def linkEnvNoGuild : LinkEnv :=
  ⟨some ⟨"abc", 0⟩, true, .ok ⟨"accessTok", "refreshTok"⟩, .ok ⟨"d1", "alice"⟩,
    .ok [], true, 10, 11, true, 12⟩

/-- Datastore snapshot holding one unexpired verification flow for the
linking code abc bound to minecraft UUID u1. -/
def dbWithFlow : DB := ⟨[], [], [], [⟨1, 0, 100, "abc", "u1"⟩]⟩

/-- Concrete createVerificationFlow oracle with every datastore statement
succeeding. -/
def createFlowEnvOk : CreateFlowEnv :=
  ⟨true, true, true, true, fun _ => "zzzzzzzz", fun _ => true, fun _ => true,
    fun _ => true, fun _ => 99⟩

/-- Fetch oracle whose first attempt succeeds with status 201 and a null
body. -/
def fetchEnv201 : FetchEnv := ⟨fun _ => .success ⟨.null, 201⟩, fun _ => 0, fun _ => 0⟩

/-- Fetch oracle whose first attempt succeeds with status 200 and a null
body. -/
def fetchEnv200 : FetchEnv := ⟨fun _ => .success ⟨.null, 200⟩, fun _ => 0, fun _ => 0⟩

/-- Fetch oracle whose attempts are all rate limited with a 1000 ms
Retry-After hint and take no time themselves. -/
def fetchEnvRetryHint : FetchEnv := ⟨fun _ => .retry (some 1000), fun _ => 0, fun _ => 0⟩

/-- Fetch oracle whose attempts all fail retryably without a delay hint,
take no time, and draw 0 from the jitter source. -/
def fetchEnvRetryNoHint : FetchEnv := ⟨fun _ => .retry none, fun _ => 0, fun _ => 0⟩

/-!
# Theorems
-/

set_option maxHeartbeats 3200000 in
/-- C9: handleRPC classifies failures in pipeline order with the standard
codes: unparseable body → -32700, envelope schema failure → -32600,
unknown method → -32601, params schema failure → -32602, throwing handler
→ -32603; every input yields a well-formed response (the throw is caught
at the dispatcher boundary), and otherwise the handler result is wrapped
unchanged in the result field. -/
theorem handleRPC_error_classification (env : RpcEnv) :
    (env.bodyReadOk = false → handleRPC env = .failure .null (-32700) "Parse error") ∧
    (env.bodyReadOk = true → env.jsonParseOk = false →
      handleRPC env = .failure .null (-32700) "Parse error") ∧
    (env.bodyReadOk = true → env.jsonParseOk = true → env.envelopeOk = false →
      handleRPC env = .failure .null (-32600) "Invalid Request") ∧
    (env.bodyReadOk = true → env.jsonParseOk = true → env.envelopeOk = true →
      knownMethods.contains env.method = false →
      handleRPC env = .failure (env.envelopeId.getD .null) (-32601) "Method not found") ∧
    (env.bodyReadOk = true → env.jsonParseOk = true → env.envelopeOk = true →
      knownMethods.contains env.method = true → env.paramsOk = false →
      handleRPC env = .failure (env.envelopeId.getD .null) (-32602) "Invalid params") ∧
    (env.bodyReadOk = true → env.jsonParseOk = true → env.envelopeOk = true →
      knownMethods.contains env.method = true → env.paramsOk = true → env.handlerThrows = true →
      handleRPC env = .failure (env.envelopeId.getD .null) (-32603) "Internal error") ∧
    (env.bodyReadOk = true → env.jsonParseOk = true → env.envelopeOk = true →
      knownMethods.contains env.method = true → env.paramsOk = true → env.handlerThrows = false →
      handleRPC env = .success (env.envelopeId.getD .null) env.handlerValue) ∧
    wellFormedResponse (handleRPC env) := by
  obtain ⟨br, jp, eo, eid, m, po, ht, hv⟩ := env
  cases hm : knownMethods.contains m <;>
    cases br <;> cases jp <;> cases eo <;> cases po <;> cases ht <;>
      simp_all [handleRPC, wellFormedResponse]

/-- Witness for C9 at a concrete input: a structurally valid request for
an unregistered method is answered with code -32601 and the echoed id. -/
theorem handleRPC_error_classification_witness :
    handleRPC rpcEnvUnknownMethod = .failure (.num 5) (-32601) "Method not found" :=
  (handleRPC_error_classification rpcEnvUnknownMethod).2.2.2.1 rfl rfl rfl (by decide)

set_option maxHeartbeats 1600000 in
/-- C10: a request rejected before the envelope schema check passes (body
read failure, JSON parse failure, envelope mismatch) is answered with id
null even when the body carried an id member; once the envelope validates,
every response echoes the request id (with absent ids normalised to
null). -/
theorem handleRPC_id_echo (env : RpcEnv) :
    ((env.bodyReadOk = false ∨ env.jsonParseOk = false ∨ env.envelopeOk = false) →
      responseId (handleRPC env) = .null) ∧
    (env.bodyReadOk = true → env.jsonParseOk = true → env.envelopeOk = true →
      responseId (handleRPC env) = env.envelopeId.getD .null) := by
  obtain ⟨br, jp, eo, eid, m, po, ht, hv⟩ := env
  cases hm : knownMethods.contains m <;>
    cases br <;> cases jp <;> cases eo <;> cases po <;> cases ht <;>
      simp_all [handleRPC, responseId]

/-- Witness for C10 at a concrete input: the body read fails while the
body carries id 7, and the response id is still null. -/
theorem handleRPC_id_echo_witness :
    responseId (handleRPC rpcEnvBodyReadFails) = .null :=
  (handleRPC_id_echo rpcEnvBodyReadFails).1 (Or.inl rfl)

/-- Closed form of the rejection-sampling loop: starting from a partial
code of length at most `LENGTH`, the loop succeeds exactly when the byte
stream holds enough accepted bytes, and then returns the first `LENGTH`
symbols of the partial code extended by the mapped accepted bytes. -/
lemma genLoop_eq (bytes : List Nat) :
    ∀ code : List Char, code.length ≤ LENGTH →
      genLoop bytes code =
        if LENGTH ≤ code.length + (bytes.filter (fun b => b < maxValid)).length then
          some ((code ++ (bytes.filter (fun b => b < maxValid)).map toLinkChar).take LENGTH)
        else none := by
  induction bytes with
  | nil =>
    intro code hc
    by_cases h : LENGTH ≤ code.length
    · simp [genLoop, h, List.take_of_length_le hc]
    · simp [genLoop, h]
  | cons b rest ih =>
    intro code hc
    by_cases h8 : LENGTH ≤ code.length
    · have hlen : code.length = LENGTH := le_antisymm hc h8
      have htake : ∀ l : List Char, (code ++ l).take LENGTH = code := by
        intro l
        rw [← hlen]
        exact List.take_left code l
      simp [genLoop, h8, htake]
      omega
    · have hlt : code.length < LENGTH := lt_of_not_le h8
      by_cases hb : b < maxValid
      · have h' : (code ++ [toLinkChar b]).length ≤ LENGTH := by
          simp
          omega
        rw [genLoop, if_neg h8]
        simp only [hb, if_pos]
        rw [ih _ h']
        simp [hb, List.filter_cons, List.append_assoc]
        exact if_congr (by omega) rfl rfl
      · have h' : code.length ≤ LENGTH := le_of_lt hlt
        rw [genLoop, if_neg h8]
        simp only [hb, if_neg, if_false]
        rw [ih _ h']
        simp [hb, List.filter_cons]

/-- Every symbol produced by `toLinkChar` lies in the alphabet. -/
lemma toLinkChar_mem (b : Nat) : toLinkChar b ∈ CHARS := by
  have h : b % charsLength < CHARS.length := Nat.mod_lt _ (by decide)
  rw [toLinkChar, List.getD_eq_getElem _ _ h]
  exact List.getElem_mem h

/-- C5: every code produced by generateLinkingCode has length exactly 8
over the 36-symbol alphabet; a byte contributes a character exactly when
it is below `maxValid = 252` (the largest multiple of 36 fitting in a
byte), the character being the alphabet symbol at index byte mod 36; and
each of the 36 symbols has exactly 7 accepted bytes as preimages, so the
sampling has no modulo bias. -/
theorem generateLinkingCode_spec :
    (∀ bytes code, generateLinkingCode bytes = some code →
      code.length = LENGTH ∧ (∀ c ∈ code, c ∈ CHARS) ∧
      code = ((bytes.filter (fun b => b < maxValid)).map toLinkChar).take LENGTH) ∧
    maxValid = 252 ∧ charsLength = 36 ∧ LENGTH = 8 ∧
    (∀ bytes, (generateLinkingCode bytes).isSome ↔
      LENGTH ≤ (bytes.filter (fun b => b < maxValid)).length) ∧
    (∀ b, toLinkChar b = CHARS.getD (b % 36) 'a') ∧
    (∀ c ∈ CHARS, (((List.range 256).filter (fun b => b < maxValid)).filter
      (fun b => toLinkChar b = c)).length = 7) := by
  have key : ∀ bytes : List Nat, generateLinkingCode bytes =
      if LENGTH ≤ (bytes.filter (fun b => b < maxValid)).length then
        some (((bytes.filter (fun b => b < maxValid)).map toLinkChar).take LENGTH)
      else none := by
    intro bytes
    rw [generateLinkingCode, genLoop_eq bytes [] (by simp)]
    simp
  refine ⟨?_, by decide, by decide, by decide, ?_, fun b => rfl, by decide⟩
  · intro bytes code hsome
    rw [key] at hsome
    by_cases h : LENGTH ≤ (bytes.filter (fun b => b < maxValid)).length
    · rw [if_pos h] at hsome
      have hcode : code =
          ((bytes.filter (fun b => b < maxValid)).map toLinkChar).take LENGTH :=
        (Option.some.injEq _ _ ▸ hsome).symm
      refine ⟨?_, ?_, hcode⟩
      · rw [hcode, List.length_take, List.length_map]
        omega
      · intro c h0
        rw [hcode] at h0
        have := List.mem_of_mem_take h0
        obtain ⟨b, hb, rfl⟩ := List.mem_map.mp this
        exact toLinkChar_mem b
    · rw [if_neg h] at hsome
      exact absurd hsome (by simp)
  · intro bytes
    rw [key]
    by_cases h : LENGTH ≤ (bytes.filter (fun b => b < maxValid)).length <;> simp [h]

/-- Witness for C5 at a concrete byte stream: the bytes 0..7 are all
accepted and produce the code abcdefgh. -/
theorem generateLinkingCode_spec_witness :
    generateLinkingCode [0, 1, 2, 3, 4, 5, 6, 7] = some "abcdefgh".toList ∧
    ("abcdefgh".toList.length = LENGTH ∧ (∀ c ∈ "abcdefgh".toList, c ∈ CHARS) ∧
      "abcdefgh".toList =
        (([0, 1, 2, 3, 4, 5, 6, 7].filter (fun b => b < maxValid)).map toLinkChar).take LENGTH) :=
  ⟨by decide, generateLinkingCode_spec.1 [0, 1, 2, 3, 4, 5, 6, 7] "abcdefgh".toList (by decide)⟩

/-- Updating the expiry of the flow found at time now1 keeps it the first
match at any later time now2 still below the new expiry: earlier rows were
rejected at now1 and, rowids being distinct, are untouched by the update,
so they stay rejected at now2. -/
lemma find?_updateExpiry
    (flows : List FlowRow) (f : FlowRow) (uuid : String) (now1 now2 e : Nat)
    (hnodup : (flows.map FlowRow.id).Nodup)
    (hfind : flows.find?
      (fun g => g.minecraftUUID == uuid && decide (now1 < g.expiresAt)) = some f)
    (h12 : now1 ≤ now2) (h2e : now2 < e) :
    (flows.map (fun g => if g.id = f.id then { g with expiresAt := e } else g)).find?
      (fun g => g.minecraftUUID == uuid && decide (now2 < g.expiresAt))
      = some { f with expiresAt := e } := by
  induction flows with
  | nil => simp at hfind
  | cons g gs ih =>
    rw [List.map_cons, List.nodup_cons] at hnodup
    rw [List.find?_cons] at hfind
    rw [List.map_cons, List.find?_cons]
    by_cases hg : (g.minecraftUUID == uuid && decide (now1 < g.expiresAt)) = true
    · rw [hg] at hfind
      have hgf : g = f := by simpa using hfind
      subst hgf
      rw [if_pos rfl]
      have hp2 : ((({ g with expiresAt := e } : FlowRow)).minecraftUUID == uuid &&
          decide (now2 < ({ g with expiresAt := e } : FlowRow).expiresAt)) = true := by
        simp only [Bool.and_eq_true, beq_iff_eq, decide_eq_true_eq] at hg ⊢
        exact ⟨hg.1, h2e⟩
      rw [hp2]
    · have hg' : (g.minecraftUUID == uuid && decide (now1 < g.expiresAt)) = false :=
        Bool.not_eq_true _ ▸ (by simpa using hg)
      rw [hg'] at hfind
      have hfmem : f ∈ gs := List.mem_of_find?_eq_some hfind
      have hgid : ¬(g.id = f.id) := by
        intro hid
        exact hnodup.1 (hid ▸ List.mem_map_of_mem FlowRow.id hfmem)
      rw [if_neg hgid]
      have hp2 : (g.minecraftUUID == uuid && decide (now2 < g.expiresAt)) = false := by
        by_cases huu : (g.minecraftUUID == uuid) = true
        · have h1 : ¬ now1 < g.expiresAt := by
            intro hlt
            apply hg
            rw [huu, Bool.true_and]
            exact decide_eq_true hlt
          rw [huu, Bool.true_and, decide_eq_false_iff_not]
          omega
        · have huu' : (g.minecraftUUID == uuid) = false := by simpa using huu
          rw [huu', Bool.false_and]
      rw [hp2]
      exact ih hnodup.2 hfind

/-- An expiry update changes no rowid, linking code or UUID. -/
lemma map_updateExpiry_proj (flows : List FlowRow) (fid e : Nat) :
    (flows.map (fun g => if g.id = fid then { g with expiresAt := e } else g)).map
      (fun g => (g.id, g.linkingCode, g.minecraftUUID)) =
    flows.map (fun g => (g.id, g.linkingCode, g.minecraftUUID)) := by
  rw [List.map_map]
  apply List.map_congr_left
  intro g _
  by_cases h : g.id = fid <;> simp [h, Function.comp]

/-- C4: while an unexpired flow exists for a UUID, createVerificationFlow
(with a valid shared secret and the datastore statements succeeding)
returns the existing linking code unchanged and sets the row expiry to
now plus 15 minutes; two such calls return the same code with
non-decreasing expiresAt, and no flow row is created, deleted or recoded
(the id/code/UUID projection of the table is preserved). -/
theorem createVerificationFlow_idempotent
    (env1 env2 : CreateFlowEnv) (uuid : String) (now1 now2 : Nat) (db : DB) (f : FlowRow)
    (h1s : env1.secretOk = true) (h1q : env1.existingQueryOk = true)
    (h1u : env1.updateOk = true)
    (h2s : env2.secretOk = true) (h2q : env2.existingQueryOk = true)
    (h2u : env2.updateOk = true)
    (hfind : db.verificationFlows.find?
      (fun g => g.minecraftUUID == uuid && decide (now1 < g.expiresAt)) = some f)
    (hnodup : (db.verificationFlows.map FlowRow.id).Nodup)
    (h12 : now1 ≤ now2) (hTTL : now2 < now1 + EXPIRY_DURATION_MS) :
    (createVerificationFlow env1 uuid now1 db).1 =
      .ok ⟨now1 + EXPIRY_DURATION_MS, f.linkingCode⟩ ∧
    (createVerificationFlow env1 uuid now1 db).2.verificationFlows =
      db.verificationFlows.map
        (fun g => if g.id = f.id then { g with expiresAt := now1 + EXPIRY_DURATION_MS }
          else g) ∧
    (createVerificationFlow env2 uuid now2 (createVerificationFlow env1 uuid now1 db).2).1 =
      .ok ⟨now2 + EXPIRY_DURATION_MS, f.linkingCode⟩ ∧
    now1 + EXPIRY_DURATION_MS ≤ now2 + EXPIRY_DURATION_MS ∧
    ((createVerificationFlow env2 uuid now2
        (createVerificationFlow env1 uuid now1 db).2).2).verificationFlows.map
        (fun g => (g.id, g.linkingCode, g.minecraftUUID)) =
      db.verificationFlows.map (fun g => (g.id, g.linkingCode, g.minecraftUUID)) := by
  have hcall1 : createVerificationFlow env1 uuid now1 db =
      (.ok ⟨now1 + EXPIRY_DURATION_MS, f.linkingCode⟩,
        { db with verificationFlows :=
            (db.verificationFlows.map fun g =>
              if g.id = f.id then { g with expiresAt := now1 + EXPIRY_DURATION_MS }
              else g) }) := by
    simp [createVerificationFlow, h1s, h1q, hfind, h1u]
  have hfind2 :
      ((db.verificationFlows.map fun g =>
        if g.id = f.id then { g with expiresAt := now1 + EXPIRY_DURATION_MS } else g).find?
        (fun g => g.minecraftUUID == uuid && decide (now2 < g.expiresAt)))
      = some { f with expiresAt := now1 + EXPIRY_DURATION_MS } :=
    find?_updateExpiry db.verificationFlows f uuid now1 now2 _ hnodup hfind h12 hTTL
  have hcall2 : createVerificationFlow env2 uuid now2
      (createVerificationFlow env1 uuid now1 db).2 =
      (.ok ⟨now2 + EXPIRY_DURATION_MS, f.linkingCode⟩,
        { db with verificationFlows :=
            ((db.verificationFlows.map fun g =>
                if g.id = f.id then { g with expiresAt := now1 + EXPIRY_DURATION_MS }
                else g).map fun g =>
              if g.id = f.id then { g with expiresAt := now2 + EXPIRY_DURATION_MS }
              else g) }) := by
    rw [hcall1]
    simp [createVerificationFlow, h2s, h2q, hfind2, h2u]
  refine ⟨by rw [hcall1], by rw [hcall1], by rw [hcall2], by omega, ?_⟩
  rw [hcall2]
  simp only []
  rw [map_updateExpiry_proj, map_updateExpiry_proj]

/-- Witness for C4 at a concrete datastore: a flow for UUID u1 expiring
at 100 is reused by calls at times 10 and 20. -/
theorem createVerificationFlow_idempotent_witness :
    (createVerificationFlow createFlowEnvOk "u1" 10 dbWithFlow).1 =
      .ok ⟨10 + EXPIRY_DURATION_MS, "abc"⟩ ∧
    (createVerificationFlow createFlowEnvOk "u1" 20
      (createVerificationFlow createFlowEnvOk "u1" 10 dbWithFlow).2).1 =
      .ok ⟨20 + EXPIRY_DURATION_MS, "abc"⟩ := by
  have h := createVerificationFlow_idempotent createFlowEnvOk createFlowEnvOk "u1" 10 20
    dbWithFlow ⟨1, 0, 100, "abc", "u1"⟩ rfl rfl rfl rfl rfl rfl (by decide) (by decide)
    (by decide) (by decide)
  exact ⟨h.1, h.2.2.1⟩

/-- C2 counterexample: with a valid shared secret and all lookups
succeeding, a datastore holding the GameIdentity row and a Connection row
whose referenced SocialIdentity row is missing makes verifyConnection
return DatabaseError, not the NotLinked the claim requires for every
missing-row case. -/
theorem verifyConnection_dangling_counterexample :
    (verifyConnection verifyEnvAllOk ⟨"g"⟩ "u1" dbDanglingConnection).1 = .err .DatabaseError ∧
    (verifyConnection verifyEnvAllOk ⟨"g"⟩ "u1" dbDanglingConnection).1 ≠ .err .NotLinked := by
  decide

/-- C2 as amended: with a valid shared secret and the involved lookups
succeeding, a missing GameIdentity row or a missing Connection row makes
verifyConnection return NotLinked, while a Connection row whose referenced
SocialIdentity row is missing makes it return DatabaseError. -/
theorem verifyConnection_notLinked_classification
    (env : VerifyEnv) (ctx : LinkCtx) (uuid : String) (db : DB)
    (hs : env.secretOk = true) (hmq : env.mcQueryOk = true) :
    (db.minecraftUsers.find? (fun r => r.minecraftUUID == uuid) = none →
      (verifyConnection env ctx uuid db).1 = .err .NotLinked) ∧
    (∀ mu, db.minecraftUsers.find? (fun r => r.minecraftUUID == uuid) = some mu →
      env.connQueryOk = true →
      db.connections.find? (fun r => r.minecraftUserID == mu.id) = none →
      (verifyConnection env ctx uuid db).1 = .err .NotLinked) ∧
    (∀ mu conn, db.minecraftUsers.find? (fun r => r.minecraftUUID == uuid) = some mu →
      env.connQueryOk = true →
      db.connections.find? (fun r => r.minecraftUserID == mu.id) = some conn →
      env.duQueryOk = true →
      db.discordUsers.find? (fun r => r.id == conn.discordUserID) = none →
      (verifyConnection env ctx uuid db).1 = .err .DatabaseError) := by
  refine ⟨?_, ?_, ?_⟩
  · intro h
    simp [verifyConnection, hs, hmq, h]
  · intro mu hmu hcq hconn
    simp [verifyConnection, hs, hmq, hmu, hcq, hconn]
  · intro mu conn hmu hcq hconn hdq hdu
    simp [verifyConnection, hs, hmq, hmu, hcq, hconn, hdq, hdu]

/-- Witness for the amended C2: on an empty datastore the handler reports
NotLinked. -/
theorem verifyConnection_notLinked_classification_witness :
    (verifyConnection verifyEnvAllOk ⟨"g"⟩ "u1" ⟨[], [], [], []⟩).1 = .err .NotLinked :=
  (verifyConnection_notLinked_classification verifyEnvAllOk ⟨"g"⟩ "u1" ⟨[], [], [], []⟩
    rfl rfl).1 (by decide)

/-- C8: when the refresh and the guild fetch succeed but the configured
guild is absent from the list, verifyConnection deletes the connection row
and reports AccessDenied; a subsequent verifyConnection call on the
resulting datastore (with its lookups succeeding, and at most one
connection per minecraft user as the unique index guarantees) reports
NotLinked. -/
theorem verifyConnection_membership_lost
    (env env2 : VerifyEnv) (ctx : LinkCtx) (uuid : String) (db : DB)
    (mu : MinecraftUserRow) (conn : ConnectionRow) (du : DiscordUserRow)
    (rt : String) (tok : TokenData) (guilds : List GuildData)
    (hs : env.secretOk = true) (hmq : env.mcQueryOk = true)
    (hcq : env.connQueryOk = true) (hdq : env.duQueryOk = true)
    (hmu : db.minecraftUsers.find? (fun r => r.minecraftUUID == uuid) = some mu)
    (hconn : db.connections.find? (fun r => r.minecraftUserID == mu.id) = some conn)
    (hdu : db.discordUsers.find? (fun r => r.id == conn.discordUserID) = some du)
    (hrt : du.discordRefreshToken = some rt)
    (htok : env.tokenResult = .ok tok)
    (hupd : env.refreshUpdateOk = true)
    (hgu : env.guildsResult = .ok guilds)
    (habsent : guilds.any (fun g => g.id == ctx.guildID) = false)
    (hdel : env.deleteOk = true)
    (huniq : ∀ c ∈ db.connections, c.minecraftUserID = mu.id → c.id = conn.id)
    (hs2 : env2.secretOk = true) (hmq2 : env2.mcQueryOk = true)
    (hcq2 : env2.connQueryOk = true) :
    (verifyConnection env ctx uuid db).1 = .err .AccessDenied ∧
    (verifyConnection env ctx uuid db).2.connections =
      db.connections.filter (fun c => c.id != conn.id) ∧
    (verifyConnection env2 ctx uuid (verifyConnection env ctx uuid db).2).1 =
      .err .NotLinked := by
  have hout : verifyConnection env ctx uuid db =
      (.err .AccessDenied,
        { db with
          discordUsers :=
            db.discordUsers.map (fun s =>
              if s.id = du.id then { s with discordRefreshToken := some tok.refreshToken }
              else s),
          connections := db.connections.filter (fun c => c.id != conn.id) }) := by
    simp [verifyConnection, hs, hmq, hcq, hdq, hmu, hconn, hdu, hrt, htok, hupd, hgu,
      habsent, hdel]
  have hnone :
      (db.connections.filter (fun c => c.id != conn.id)).find?
        (fun r => r.minecraftUserID == mu.id) = none := by
    rw [List.find?_eq_none]
    intro c hc
    obtain ⟨hcmem, hcid⟩ := List.mem_filter.mp hc
    simp only [bne_iff_ne, ne_eq] at hcid
    simp only [beq_iff_eq]
    intro hceq
    exact hcid (huniq c hcmem hceq)
  refine ⟨by rw [hout], by rw [hout], ?_⟩
  rw [hout]
  simp [verifyConnection, hs2, hmq2, hmu, hcq2, hnone]

/-- Every run of linkDiscordAccount ends in one of three shapes: an error
leaving the datastore untouched, a DatabaseError leaving connections and
flows untouched (the identity batch may have committed), or a success
where the matched flow is deleted and the connection upsert applied. -/
lemma link_outcomes (env : LinkEnv) (ctx : LinkCtx) (now : Nat) (db : DB) :
    ((linkDiscordAccount env ctx now db).2 = db ∧
      ∃ e, (linkDiscordAccount env ctx now db).1 = .err e) ∨
    ((linkDiscordAccount env ctx now db).1 = .err .DatabaseError ∧
      (linkDiscordAccount env ctx now db).2.connections = db.connections ∧
      (linkDiscordAccount env ctx now db).2.verificationFlows = db.verificationFlows) ∨
    (∃ u flow, (linkDiscordAccount env ctx now db).1 = .ok u ∧
      flow ∈ db.verificationFlows ∧
      (linkDiscordAccount env ctx now db).2.verificationFlows =
        db.verificationFlows.filter (fun f => f.id != flow.id) ∧
      ∃ d m, (linkDiscordAccount env ctx now db).2.connections =
        upsertConnection db.connections env.newConnectionId now d m) := by
  obtain ⟨sd, fq, tr, ur, gr, b1, nd, nm, b2, nc⟩ := env
  cases sd with
  | none => left; simp [linkDiscordAccount]
  | some st =>
    cases fq with
    | false => left; simp [linkDiscordAccount]
    | true =>
      cases hf : db.verificationFlows.find?
          (fun f => f.linkingCode == st.linkingCode && decide (now < f.expiresAt)) with
      | none => left; simp [linkDiscordAccount, hf]
      | some flow =>
        cases tr with
        | err e =>
          by_cases he : e = .invalidCode
          · left; simp [linkDiscordAccount, hf, he]
          · left; simp [linkDiscordAccount, hf, he]
        | ok token =>
          cases ur with
          | err e => left; simp [linkDiscordAccount, hf]
          | ok user =>
            cases gr with
            | err e => left; simp [linkDiscordAccount, hf]
            | ok guilds =>
              cases hmem : guilds.any (fun g => g.id == ctx.guildID) with
              | false => left; simp [linkDiscordAccount, hf, hmem]
              | true =>
                cases b1 with
                | false => left; simp [linkDiscordAccount, hf, hmem]
                | true =>
                  cases b2 with
                  | false =>
                    right; left
                    simp [linkDiscordAccount, hf, hmem]
                  | true =>
                    right; right
                    refine ⟨user.username, flow, ?_, List.mem_of_find?_eq_some hf, ?_,
                      (upsertDiscordUser db.discordUsers nd now user.id token.refreshToken).1.id,
                      (upsertMinecraftUser db.minecraftUsers nm now flow.minecraftUUID).1.id, ?_⟩
                    · simp [linkDiscordAccount, hf, hmem]
                    · simp [linkDiscordAccount, hf, hmem]
                    · simp [linkDiscordAccount, hf, hmem]

/-- C1 counterexample: an execution in which every step up to and
including the first batch (identity upserts) succeeds and the second
batch (connection upsert and flow deletion) fails leaves the discordUsers
table mutated while connections and verificationFlows are untouched — the
writes of steps 6 and 7 are neither all committed nor all rolled back, so
they are not one atomic unit and the failure leaves identity state
partially mutated. -/
theorem linkDiscordAccount_split_batch_counterexample :
    (linkDiscordAccount linkEnvBatch2Fails ⟨"g"⟩ 50 dbWithFlow).1 = .err .DatabaseError ∧
    (linkDiscordAccount linkEnvBatch2Fails ⟨"g"⟩ 50 dbWithFlow).2.discordUsers ≠
      dbWithFlow.discordUsers ∧
    (linkDiscordAccount linkEnvBatch2Fails ⟨"g"⟩ 50 dbWithFlow).2.connections =
      dbWithFlow.connections ∧
    (linkDiscordAccount linkEnvBatch2Fails ⟨"g"⟩ 50 dbWithFlow).2.verificationFlows =
      dbWithFlow.verificationFlows := by
  decide

/-- C1 as amended: the Connection upsert and the VerificationFlow deletion
form one atomic batch with each other, submitted separately after the
SocialIdentity/GameIdentity batch: every failing execution leaves
connections and flows untouched, every failure other than a datastore
failure leaves the whole datastore untouched, and every success commits
the flow deletion together with the connection upsert; a datastore
failure of the second batch may leave the identity upserts of the first
batch committed. -/
theorem linkDiscordAccount_batch_atomicity (env : LinkEnv) (ctx : LinkCtx) (now : Nat) (db : DB) :
    (∀ e, (linkDiscordAccount env ctx now db).1 = .err e →
      (linkDiscordAccount env ctx now db).2.connections = db.connections ∧
      (linkDiscordAccount env ctx now db).2.verificationFlows = db.verificationFlows) ∧
    (∀ e, (linkDiscordAccount env ctx now db).1 = .err e → e ≠ .DatabaseError →
      (linkDiscordAccount env ctx now db).2 = db) ∧
    (∀ u, (linkDiscordAccount env ctx now db).1 = .ok u →
      ∃ flow, flow ∈ db.verificationFlows ∧
        (linkDiscordAccount env ctx now db).2.verificationFlows =
          db.verificationFlows.filter (fun f => f.id != flow.id) ∧
        ∃ d m, (linkDiscordAccount env ctx now db).2.connections =
          upsertConnection db.connections env.newConnectionId now d m) := by
  rcases link_outcomes env ctx now db with ⟨h2, e0, h1⟩ |
    ⟨h1, hc, hfl⟩ | ⟨u, flow, h1, hmem, hfl, d, m, hconn⟩
  · refine ⟨fun e he => by rw [h2]; exact ⟨rfl, rfl⟩, fun e he hne => h2, fun u hu => ?_⟩
    rw [h1] at hu
    exact absurd hu (by simp)
  · refine ⟨fun e he => ⟨hc, hfl⟩, fun e he hne => ?_, fun u hu => ?_⟩
    · rw [h1] at he
      simp only [Result.err.injEq] at he
      exact absurd he.symm hne
    · rw [h1] at hu
      exact absurd hu (by simp)
  · refine ⟨fun e he => ?_, fun e he hne => ?_, fun u0 hu => ⟨flow, hmem, hfl, d, m, hconn⟩⟩
    · rw [h1] at he
      exact absurd he (by simp)
    · rw [h1] at he
      exact absurd he (by simp)

/-- Witness for the amended C1: with both batches succeeding on a
datastore holding a matching unexpired flow, the call succeeds, the flow
row is deleted and the connection upsert is applied. -/
theorem linkDiscordAccount_batch_atomicity_witness :
    ∃ flow, flow ∈ dbWithFlow.verificationFlows ∧
      (linkDiscordAccount linkEnvAllOk ⟨"g"⟩ 50 dbWithFlow).2.verificationFlows =
        dbWithFlow.verificationFlows.filter (fun f => f.id != flow.id) ∧
      ∃ d m, (linkDiscordAccount linkEnvAllOk ⟨"g"⟩ 50 dbWithFlow).2.connections =
        upsertConnection dbWithFlow.connections linkEnvAllOk.newConnectionId 50 d m :=
  (linkDiscordAccount_batch_atomicity linkEnvAllOk ⟨"g"⟩ 50 dbWithFlow).2.2
    "alice" (by decide)

/-- C7: an execution of linkDiscordAccount that reports AccessDenied
(the configured guild being absent from the fetched membership list)
leaves the datastore snapshot exactly as it was: no row of any of the
four tables is created, updated or deleted, and in particular the matched
verification flow is left intact for a retry. -/
theorem linkDiscordAccount_accessDenied_pure
    (env : LinkEnv) (ctx : LinkCtx) (now : Nat) (db : DB)
    (h : (linkDiscordAccount env ctx now db).1 = .err .AccessDenied) :
    (linkDiscordAccount env ctx now db).2 = db := by
  rcases link_outcomes env ctx now db with ⟨h2, e0, h1⟩ |
    ⟨h1, hc, hfl⟩ | ⟨u, flow, h1, hmem, hfl, d, m, hconn⟩
  · exact h2
  · rw [h] at h1
    exact absurd h1 (by simp)
  · rw [h] at h1
    exact absurd h1 (by simp)

/-- Witness for C7: a concrete run in which the guild list comes back
empty reports AccessDenied and returns the datastore unchanged. -/
theorem linkDiscordAccount_accessDenied_pure_witness :
    (linkDiscordAccount linkEnvNoGuild ⟨"g"⟩ 50 dbWithFlow).2 = dbWithFlow :=
  linkDiscordAccount_accessDenied_pure linkEnvNoGuild ⟨"g"⟩ 50 dbWithFlow (by decide)

/-- Witness for C8 at a concrete linked datastore whose user has left the
guild: the first call reports AccessDenied, the second NotLinked. -/
theorem verifyConnection_membership_lost_witness :
    (verifyConnection verifyEnvAllOk ⟨"g"⟩ "u1" dbLinked).1 = .err .AccessDenied ∧
    (verifyConnection verifyEnvAllOk ⟨"g"⟩ "u1" dbLinked).2.connections =
      dbLinked.connections.filter (fun c => c.id != (7 : Nat)) ∧
    (verifyConnection verifyEnvAllOk ⟨"g"⟩ "u1"
      (verifyConnection verifyEnvAllOk ⟨"g"⟩ "u1" dbLinked).2).1 = .err .NotLinked := by
  have h := verifyConnection_membership_lost verifyEnvAllOk verifyEnvAllOk ⟨"g"⟩ "u1" dbLinked
    ⟨1, 0, "u1"⟩ ⟨7, 0, 5, 1⟩ ⟨5, 0, "d1", some "storedTok"⟩ "storedTok"
    ⟨"accessTok", "rotatedTok"⟩ []
    rfl rfl rfl rfl (by decide) (by decide) (by decide) rfl rfl rfl rfl rfl rfl
    (by decide) rfl rfl rfl
  exact h

/-- C3 counterexample: a revocation whose fetch succeeds with status 201
— a 2xx status — is classified unexpected-response, not success, so
success is not "any 2xx". -/
theorem revoke_status201_counterexample :
    revokeDiscordOAuth2Token fetchEnv201 defaultRetries defaultTimeoutMs 0 =
      .err .unexpectedResponse ∧
    discordFetch fetchEnv201 defaultRetries defaultTimeoutMs 0 = .ok ⟨.null, 201⟩ ∧
    (200 ≤ 201 ∧ 201 < 300) ∧
    (Result.err RevokeError.unexpectedResponse ≠ (.ok () : Result Unit RevokeError)) := by
  have hf : discordFetch fetchEnv201 defaultRetries defaultTimeoutMs 0 = .ok ⟨.null, 201⟩ := by
    rw [discordFetch, defaultRetries, defaultTimeoutMs]
    rw [show (3 : Nat) + 1 = 2 + 1 + 1 from rfl]
    rw [fetchGo]
    norm_num [fetchEnv201]
  refine ⟨?_, hf, by norm_num, by simp⟩
  rw [revokeDiscordOAuth2Token, hf]
  rfl

/-- C3 as amended: for a revocation whose underlying fetch succeeds and is
not classified retryable, the call succeeds exactly when the status is 200
or 204 (regardless of the body, which is never read); a 401 yields
invalid-auth and any other status yields unexpected-response. -/
theorem revoke_status_classification
    (env : FetchEnv) (retries : Nat) (timeoutMs startTime : ℚ) (s : FetchSuccess)
    (h : discordFetch env retries timeoutMs startTime = .ok s) :
    (revokeDiscordOAuth2Token env retries timeoutMs startTime = .ok () ↔
      (s.statusCode = 200 ∨ s.statusCode = 204)) ∧
    (s.statusCode = 401 →
      revokeDiscordOAuth2Token env retries timeoutMs startTime = .err .invalidAuth) ∧
    (s.statusCode ≠ 401 → s.statusCode ≠ 200 → s.statusCode ≠ 204 →
      revokeDiscordOAuth2Token env retries timeoutMs startTime = .err .unexpectedResponse) ∧
    (∀ d : Json, revokeClassify ⟨d, s.statusCode⟩ = revokeClassify s) := by
  have hrev : revokeDiscordOAuth2Token env retries timeoutMs startTime = revokeClassify s := by
    rw [revokeDiscordOAuth2Token, h]
  refine ⟨?_, ?_, ?_, fun d => rfl⟩
  · rw [hrev, revokeClassify]
    by_cases h401 : s.statusCode = 401
    · simp [h401]
    · by_cases h200 : s.statusCode = 200
      · simp [h401, h200]
      · by_cases h204 : s.statusCode = 204
        · simp [h401, h200, h204]
        · simp [h401, h200, h204]
  · intro h401
    rw [hrev, revokeClassify, if_pos h401]
  · intro h401 h200 h204
    rw [hrev, revokeClassify, if_neg h401, if_pos ⟨h200, h204⟩]

/-- Witness for the amended C3: a fetch succeeding with status 200 makes
the revocation succeed. -/
theorem revoke_status_classification_witness :
    revokeDiscordOAuth2Token fetchEnv200 defaultRetries defaultTimeoutMs 0 = .ok () :=
  (revoke_status_classification fetchEnv200 defaultRetries defaultTimeoutMs 0
    ⟨.null, 200⟩ (by
      rw [discordFetch, defaultRetries, defaultTimeoutMs]
      rw [show (3 : Nat) + 1 = 2 + 1 + 1 from rfl]
      rw [fetchGo]
      norm_num [fetchEnv200])).1.mpr (Or.inl rfl)

/-- C6: discordFetch enforces a single deadline startTime + timeoutMs
(default 5000 ms, default 3 retries) across all attempts: exhausted
remaining time before an attempt yields timeout; a Retry-After hint whose
sleep would end at or past the deadline yields timeout, otherwise the
next attempt starts exactly after the hinted delay; without a hint the
delay is 500·2^(attempt-1) times a jitter factor in [0.85, 1.15], capped
at the remaining time minus the safety buffer, a non-positive capped
delay stopping the retries; and a retryable outcome past the retry
budget, or an exhausted attempt loop, yields retries-exhausted. -/
theorem discordFetch_deadline_retry :
    (∀ (env : FetchEnv) (retries : Nat) (timeoutMs startTime : ℚ),
      discordFetch env retries timeoutMs startTime =
        fetchGo env (startTime + timeoutMs) retries (retries + 1) 1 startTime) ∧
    defaultTimeoutMs = 5000 ∧ defaultRetries = 3 ∧
    (∀ (env : FetchEnv) (maxEnd : ℚ) (retries fuel attempt : Nat) (now : ℚ),
      maxEnd - now ≤ 0 →
      fetchGo env maxEnd retries (fuel + 1) attempt now = .err .timeout) ∧
    (∀ (env : FetchEnv) (maxEnd : ℚ) (retries fuel attempt : Nat) (now a : ℚ),
      0 < maxEnd - now → env.duration attempt < maxEnd - now →
      env.outcome attempt = .retry (some a) → attempt ≤ retries →
      maxEnd ≤ now + env.duration attempt + a →
      fetchGo env maxEnd retries (fuel + 1) attempt now = .err .timeout) ∧
    (∀ (env : FetchEnv) (maxEnd : ℚ) (retries fuel attempt : Nat) (now a : ℚ),
      0 < maxEnd - now → env.duration attempt < maxEnd - now →
      env.outcome attempt = .retry (some a) → attempt ≤ retries →
      now + env.duration attempt + a < maxEnd →
      fetchGo env maxEnd retries (fuel + 1) attempt now =
        fetchGo env maxEnd retries fuel (attempt + 1) (now + env.duration attempt + a)) ∧
    (∀ (env : FetchEnv) (maxEnd : ℚ) (retries fuel attempt : Nat) (now : ℚ),
      0 < maxEnd - now → env.duration attempt < maxEnd - now →
      env.outcome attempt = .retry none → attempt ≤ retries →
      ((min (500 * 2 ^ (attempt - 1) * (env.random attempt * JITTER_RANGE + JITTER_MIN))
          (maxEnd - (now + env.duration attempt) - EXTRA_BUFFER_MS) ≤ 0 →
        fetchGo env maxEnd retries (fuel + 1) attempt now = .err .retriesExhausted) ∧
      (0 < min (500 * 2 ^ (attempt - 1) * (env.random attempt * JITTER_RANGE + JITTER_MIN))
          (maxEnd - (now + env.duration attempt) - EXTRA_BUFFER_MS) →
        fetchGo env maxEnd retries (fuel + 1) attempt now =
          fetchGo env maxEnd retries fuel (attempt + 1)
            (now + env.duration attempt +
              min (500 * 2 ^ (attempt - 1) * (env.random attempt * JITTER_RANGE + JITTER_MIN))
                (maxEnd - (now + env.duration attempt) - EXTRA_BUFFER_MS))))) ∧
    (∀ r : ℚ, 0 ≤ r → r < 1 →
      JITTER_MIN ≤ r * JITTER_RANGE + JITTER_MIN ∧
      r * JITTER_RANGE + JITTER_MIN ≤ 23 / 20) ∧
    (∀ (env : FetchEnv) (maxEnd : ℚ) (retries fuel attempt : Nat) (now : ℚ)
      (h : Option ℚ),
      0 < maxEnd - now → env.duration attempt < maxEnd - now →
      env.outcome attempt = .retry h → retries < attempt →
      fetchGo env maxEnd retries (fuel + 1) attempt now = .err .retriesExhausted) ∧
    (∀ (env : FetchEnv) (maxEnd : ℚ) (retries attempt : Nat) (now : ℚ),
      fetchGo env maxEnd retries 0 attempt now = .err .retriesExhausted) := by
  refine ⟨fun env retries timeoutMs startTime => rfl, rfl, rfl, ?_, ?_, ?_, ?_, ?_, ?_,
    fun env maxEnd retries attempt now => rfl⟩
  · intro env maxEnd retries fuel attempt now h0
    simp [fetchGo, h0]
  · intro env maxEnd retries fuel attempt now a h0 hdur ho hatt hlate
    simp [fetchGo, not_le.mpr h0, not_le.mpr hdur, ho, not_lt.mpr hatt, hlate]
  · intro env maxEnd retries fuel attempt now a h0 hdur ho hatt hearly
    simp [fetchGo, not_le.mpr h0, not_le.mpr hdur, ho, not_lt.mpr hatt, not_le.mpr hearly]
  · intro env maxEnd retries fuel attempt now h0 hdur ho hatt
    constructor
    · intro hneg
      simp [fetchGo, not_le.mpr h0, not_le.mpr hdur, ho, not_lt.mpr hatt, hneg]
    · intro hpos
      simp [fetchGo, not_le.mpr h0, not_le.mpr hdur, ho, not_lt.mpr hatt, not_le.mpr hpos]
  · intro r h0 h1
    constructor
    · have : 0 ≤ r * JITTER_RANGE := by
        apply mul_nonneg h0
        rw [JITTER_RANGE]
        norm_num
      linarith
    · have : r * JITTER_RANGE ≤ JITTER_RANGE := by
        nth_rewrite 2 [← one_mul JITTER_RANGE]
        apply mul_le_mul_of_nonneg_right (le_of_lt h1)
        rw [JITTER_RANGE]
        norm_num
      rw [JITTER_RANGE, JITTER_MIN] at *
      linarith
  · intro env maxEnd retries fuel attempt now h h0 hdur ho hbudget
    simp [fetchGo, not_le.mpr h0, not_le.mpr hdur, ho, hbudget]

/-- Witness for C6 at concrete inputs: each clause of the deadline and
retry-scheduling characterisation evaluated on concrete oracles. -/
theorem discordFetch_deadline_retry_witness :
    (fetchGo fetchEnvRetryHint 100 3 4 1 200 = .err .timeout) ∧
    (fetchGo fetchEnvRetryHint 5000 3 4 1 4500 = .err .timeout) ∧
    (fetchGo fetchEnvRetryHint 5000 3 4 1 1000 =
      fetchGo fetchEnvRetryHint 5000 3 3 (1 + 1)
        (1000 + fetchEnvRetryHint.duration 1 + 1000)) ∧
    (fetchGo fetchEnvRetryNoHint 5000 3 4 1 4950 = .err .retriesExhausted) ∧
    (fetchGo fetchEnvRetryNoHint 5000 3 4 1 0 =
      fetchGo fetchEnvRetryNoHint 5000 3 3 (1 + 1)
        (0 + fetchEnvRetryNoHint.duration 1 +
          min (500 * 2 ^ (1 - 1) *
              (fetchEnvRetryNoHint.random 1 * JITTER_RANGE + JITTER_MIN))
            (5000 - (0 + fetchEnvRetryNoHint.duration 1) - EXTRA_BUFFER_MS))) ∧
    (JITTER_MIN ≤ (1 / 2 : ℚ) * JITTER_RANGE + JITTER_MIN ∧
      (1 / 2 : ℚ) * JITTER_RANGE + JITTER_MIN ≤ 23 / 20) ∧
    (fetchGo fetchEnvRetryHint 5000 4 1 5 0 = .err .retriesExhausted) ∧
    (fetchGo fetchEnvRetryHint 5000 3 0 5 0 = .err .retriesExhausted) := by
  have h := discordFetch_deadline_retry
  refine ⟨h.2.2.2.1 fetchEnvRetryHint 100 3 3 1 200 (by norm_num),
    h.2.2.2.2.1 fetchEnvRetryHint 5000 3 3 1 4500 1000 (by norm_num)
      (by show (0 : ℚ) < 5000 - 4500; norm_num) rfl (by norm_num)
      (by show (5000 : ℚ) ≤ 4500 + 0 + 1000; norm_num),
    h.2.2.2.2.2.1 fetchEnvRetryHint 5000 3 3 1 1000 1000 (by norm_num)
      (by show (0 : ℚ) < 5000 - 1000; norm_num) rfl (by norm_num)
      (by show (1000 : ℚ) + 0 + 1000 < 5000; norm_num),
    (h.2.2.2.2.2.2.1 fetchEnvRetryNoHint 5000 3 3 1 4950 (by norm_num)
      (by show (0 : ℚ) < 5000 - 4950; norm_num) rfl (by norm_num)).1
      (by
        apply le_trans (min_le_right _ _)
        show (5000 : ℚ) - (4950 + 0) - EXTRA_BUFFER_MS ≤ 0
        rw [EXTRA_BUFFER_MS]
        norm_num),
    (h.2.2.2.2.2.2.1 fetchEnvRetryNoHint 5000 3 3 1 0 (by norm_num)
      (by show (0 : ℚ) < 5000 - 0; norm_num) rfl (by norm_num)).2
      (by
        apply lt_min
        · show (0 : ℚ) < 500 * 2 ^ (1 - 1) * (0 * JITTER_RANGE + JITTER_MIN)
          rw [JITTER_RANGE, JITTER_MIN]
          norm_num
        · show (0 : ℚ) < 5000 - (0 + 0) - EXTRA_BUFFER_MS
          rw [EXTRA_BUFFER_MS]
          norm_num),
    h.2.2.2.2.2.2.2.1 (1 / 2 : ℚ) (by norm_num) (by norm_num),
    h.2.2.2.2.2.2.2.2.1 fetchEnvRetryHint 5000 4 0 5 0 (some 1000) (by norm_num)
      (by show (0 : ℚ) < 5000 - 0; norm_num) rfl (by norm_num),
    h.2.2.2.2.2.2.2.2.2 fetchEnvRetryHint 5000 3 5 0⟩

end DML
